import Mathlib

/-!
# Monitoring configuration (`internal/pkg/core/monitoring/config/config.go`)

A shallow embedding of the monitoring configuration package: the settings
structures, the default constructors and the custom decoding step
`MonitoringHTTPConfig.Unpack`, followed by the properties proved about them.

Conventions.
* Go `int` and `time.Duration` values are `Int` (durations count
  nanoseconds); no arithmetic in this package can overflow.
* A Go `string` is a Lean `String`, read as its sequence of runes.
* A method with a pointer receiver that assigns through the receiver is a
  function returning the receiver's value after the call together with the
  returned `error` (`none` is Go's `nil`).
* A nilable pointer whose pointee is never assigned through (`*BufferConfig`,
  `*PprofConfig`, `*uint`, `*bool`, `*float32`) is an `Option` of the pointee.
  The one pointer whose identity matters, `MonitoringConfig.HTTP`, is an
  address into an explicit heap.
-/

namespace Monitoring

/-! ## Constants -/

def defaultPort : Int := 6791
def defaultNamespace : String := "default"

/-- DefaultHost is used when host is not defined or empty. -/
def DefaultHost : String := "localhost"
def ProcessRuntimeManager : String := "process"
def OtelRuntimeManager : String := "otel"
def DefaultRuntimeManager : String := ProcessRuntimeManager

/-! ## `strings.TrimSpace` -/

/-- Go `unicode.IsSpace`: the Latin-1 spaces `\t \n \v \f \r`, space, U+0085
and U+00A0, and beyond Latin-1 the code points with the White_Space
property. -/
def isSpace (r : Char) : Bool :=
  let n := r.toNat
  (9 ≤ n && n ≤ 13) || n == 0x20 || n == 0x85 || n == 0xA0 || n == 0x1680 ||
  (0x2000 ≤ n && n ≤ 0x200A) || n == 0x2028 || n == 0x2029 || n == 0x202F ||
  n == 0x205F || n == 0x3000

/-- Go `strings.TrimSpace`: the string without its leading and trailing white
space, as defined by `isSpace`. -/
def TrimSpace (s : String) : String :=
  ⟨((s.data.dropWhile isSpace).reverse.dropWhile isSpace).reverse⟩

/-! ## Settings structures -/

/-- BufferConfig is a struct for the metrics buffer endpoint. -/
structure BufferConfig where
  Enabled : Bool
deriving DecidableEq, Repr

/-- PprofConfig is a struct for the pprof enablement flag. -/
structure PprofConfig where
  Enabled : Bool
deriving DecidableEq, Repr

/-- MonitoringHTTPConfig is a config defining the HTTP endpoint published by
the agent.  `EnabledIsSet` records whether `Enabled` was set by the incoming
configuration. -/
structure MonitoringHTTPConfig where
  Enabled : Bool
  Host : String
  Port : Int
  Buffer : Option BufferConfig
  EnabledIsSet : Bool
deriving DecidableEq, Repr

/-- Go `error` values, told apart by their message. -/
structure Error where
  msg : String
deriving DecidableEq, Repr

/-- The anonymous struct `tmp` of `MonitoringHTTPConfig.Unpack`; `Enabled` is
a `*bool`. -/
structure Tmp where
  Enabled : Option Bool
  Host : String
  Port : Int
  Buffer : Option BufferConfig
deriving DecidableEq, Repr

/-- The configuration object `*c.C` of `elastic-agent-libs/config`, as far as
this package uses it: its method `Unpack` applied to a pointer to `tmp`.  The
call either fails with an error or returns with `tmp` holding the decoded
fields.  What a failed call leaves in `tmp` is not kept: `tmp` is a local that
is not read again on that path. -/
structure C where
  Unpack : Tmp → Except Error Tmp

/-! ## `MonitoringHTTPConfig.Unpack` -/

/-- Unpack reads a config object into the settings.  The result is the
returned error and the value of `*c` after the call. -/
def MonitoringHTTPConfig.Unpack (c : MonitoringHTTPConfig) (cfg : C) :
    Option Error × MonitoringHTTPConfig :=
  let tmp : Tmp := { Enabled := none, Host := c.Host, Port := c.Port, Buffer := c.Buffer }
  match cfg.Unpack tmp with
  | .error err => (some err, c)
  | .ok tmp =>
    let tmp : Tmp := if TrimSpace tmp.Host == "" then { tmp with Host := DefaultHost } else tmp
    let set : MonitoringHTTPConfig :=
      { Enabled := false, Host := tmp.Host, Port := tmp.Port, Buffer := tmp.Buffer,
        EnabledIsSet := false }
    let set : MonitoringHTTPConfig :=
      match tmp.Enabled with
      | none => { set with EnabledIsSet := false, Enabled := c.Enabled }
      | some v => { set with EnabledIsSet := true, Enabled := v }
    (none, set)

/-- The same method with the run-time panic of Go made explicit: `none` is a
nil-pointer dereference, which the expression `*tmp.Enabled` raises when
`tmp.Enabled` is nil; `some r` is a return with the result `r` as in `Unpack`. -/
def MonitoringHTTPConfig.UnpackOrPanic (c : MonitoringHTTPConfig) (cfg : C) :
    Option (Option Error × MonitoringHTTPConfig) :=
  let tmp : Tmp := { Enabled := none, Host := c.Host, Port := c.Port, Buffer := c.Buffer }
  match cfg.Unpack tmp with
  | .error err => some (some err, c)
  | .ok tmp =>
    let tmp : Tmp := if TrimSpace tmp.Host == "" then { tmp with Host := DefaultHost } else tmp
    let set : MonitoringHTTPConfig :=
      { Enabled := false, Host := tmp.Host, Port := tmp.Port, Buffer := tmp.Buffer,
        EnabledIsSet := false }
    if tmp.Enabled.isNone then
      some (none, { set with EnabledIsSet := false, Enabled := c.Enabled })
    else
      match tmp.Enabled with
      | none => none
      | some v => some (none, { set with EnabledIsSet := true, Enabled := v })

/-- The value of `tmp` that `Unpack` hands to the decode step: `Enabled` nil,
the other fields taken from the settings `c` already in place. -/
def baseTmp (c : MonitoringHTTPConfig) : Tmp :=
  { Enabled := none, Host := c.Host, Port := c.Port, Buffer := c.Buffer }

/-- The host is empty or made of white space only. -/
def blank (s : String) : Bool := s.data.all isSpace

/-! ## The structured configuration source -/

/-- Modelled from the spec: one field of the structured config source, which
the external decode library reads (the library is missing): not present, present with a value of the type the target field has, or present
with something that does not decode to that type (a type mismatch or a
malformed nested structure). -/
inductive Field (α : Type) where
  | absent : Field α
  | value (v : α) : Field α
  | malformed : Field α
deriving DecidableEq, Repr

/-- The field is present in the source and has the type of its target. -/
def Field.present {α : Type} : Field α → Bool
  | .value _ => true
  | _ => false

/-- Modelled from the spec: the `buffer` block of the structured config source,
with its `enabled` field (the external decode library is missing). -/
structure BufferInput where
  enabled : Field Bool
deriving DecidableEq, Repr

/-- Modelled from the spec: the structured config source that the external
decode library reads (the library is missing), reduced to the fields that the
shape `tmp` names by its `config` tags. -/
structure Input where
  enabled : Field Bool
  host : Field String
  port : Field Int
  buffer : Field BufferInput
deriving DecidableEq, Repr

/-- Modelled from the spec: the `min=0,max=65535` constraint that the `validate`
tag of `Port` declares; the validator itself is part of the external decode
library.  The port "must decode to an integer in [0, 65535]". -/
def validPort (p : Int) : Bool := 0 ≤ p && p ≤ 65535

/-- Modelled from the spec: decoding one scalar field (the external decode
library is missing).  A field that is not present keeps the value the target
already holds; a present one replaces it; a value of the wrong type is an
error. -/
def decodeField {α : Type} (name : String) (old : α) : Field α → Except Error α
  | .absent => .ok old
  | .value v => .ok v
  | .malformed => .error ⟨"type mismatch accessing " ++ name⟩

/-- Modelled from the spec: decoding the optional boolean `enabled` into the
`*bool` of the target (the external decode library is missing): absent leaves
the pointer as it is, a present value `v` makes it point to `v`. -/
def decodeEnabled (old : Option Bool) : Field Bool → Except Error (Option Bool)
  | .absent => .ok old
  | .value v => .ok (some v)
  | .malformed => .error ⟨"type mismatch accessing enabled"⟩

/-- Modelled from the spec: decoding `port` (the external decode library is
missing).  A present port is checked against the declared range; an absent one
keeps the value the target holds, unchecked. -/
def decodePort (old : Int) : Field Int → Except Error Int
  | .absent => .ok old
  | .value p => if validPort p then .ok p else .error ⟨"validation failed accessing port"⟩
  | .malformed => .error ⟨"type mismatch accessing port"⟩

/-- Modelled from the spec: decoding the `buffer` block (the external decode
library is missing).  An absent block leaves the pointer as it is; a present
block is decoded into a copy of the pointee, or into a zero `BufferConfig` when
the pointer is nil; a malformed block or a malformed `enabled` in it is an
error. -/
def decodeBuffer (old : Option BufferConfig) : Field BufferInput → Except Error (Option BufferConfig)
  | .absent => .ok old
  | .malformed => .error ⟨"type mismatch accessing buffer"⟩
  | .value b =>
    match decodeField "buffer.enabled" (old.getD { Enabled := false }).Enabled b.enabled with
    | .error err => .error err
    | .ok v => .ok (some { Enabled := v })

/-- Modelled from the spec: the external operation `decode(target_shape) -> error`
of the structured config source (`Unpack` of `elastic-agent-libs/config`, which
is not part of this repository), for the shape `tmp`.  The fields are decoded in
the order of the struct, and the first failure is the error returned.  A field
that is not present in the input keeps the value the target already holds (the
merge base); a present field replaces it; a type mismatch, a port outside
[0, 65535] or a malformed nested structure makes the decode fail. -/
def Input.Unpack (i : Input) (tmp : Tmp) : Except Error Tmp :=
  match decodeEnabled tmp.Enabled i.enabled with
  | .error err => .error err
  | .ok enabled =>
    match decodeField "host" tmp.Host i.host with
    | .error err => .error err
    | .ok host =>
      match decodePort tmp.Port i.port with
      | .error err => .error err
      | .ok port =>
        match decodeBuffer tmp.Buffer i.buffer with
        | .error err => .error err
        | .ok buffer => .ok { Enabled := enabled, Host := host, Port := port, Buffer := buffer }

/-- The configuration object whose source holds the fields `i`. -/
def Input.toC (i : Input) : C := ⟨i.Unpack⟩

/-! ## Default construction -/

/-- Go `time.Duration` constants, in nanoseconds. -/
def Nanosecond : Int := 1
def Microsecond : Int := 1000 * Nanosecond
def Millisecond : Int := 1000 * Microsecond
def Second : Int := 1000 * Millisecond
def Minute : Int := 60 * Second

/-- APMTLS contains the configuration options necessary for configuring TLS in
apm-agent-go. -/
structure APMTLS where
  SkipVerify : Bool
  ServerCertificate : String
  ServerCA : String
deriving DecidableEq, Repr

/-- APMConfig configures APM Tracing.  A nil slice or map is `none`; the
`*float32` is kept as the bit pattern it points to. -/
structure APMConfig where
  Environment : String
  APIKey : String
  SecretToken : String
  Hosts : Option (List String)
  GlobalLabels : Option (List (String × String))
  TLS : APMTLS
  SamplingRate : Option Nat
deriving DecidableEq, Repr

/-- The zero value `APMConfig{}`. -/
def defaultAPMConfig : APMConfig :=
  { Environment := "", APIKey := "", SecretToken := "", Hosts := none, GlobalLabels := none,
    TLS := { SkipVerify := false, ServerCertificate := "", ServerCA := "" },
    SamplingRate := none }

/-- Uploader contains the configuration for retries when uploading a file to
fleet-server. -/
structure Uploader where
  MaxRetries : Int
  InitDur : Int
  MaxDur : Int
deriving DecidableEq, Repr

def defaultUploader : Uploader :=
  { MaxRetries := 10, InitDur := Second, MaxDur := Minute * 10 }

/-- Limit contains the configuration for rate-limiting operations. -/
structure Limit where
  Interval : Int
  Burst : Int
deriving DecidableEq, Repr

def defaultLimit : Limit :=
  { Interval := Minute, Burst := 1 }

/-- Diagnostics contains the configuration needed to configure the diagnostics
handler. -/
structure Diagnostics where
  Uploader : Uploader
  Limit : Limit
deriving DecidableEq, Repr

def defaultDiagnostics : Diagnostics :=
  { Uploader := defaultUploader, Limit := defaultLimit }

/-- MonitoringConfig describes a configuration of a monitoring.  `R` is what
stands for the `*MonitoringHTTPConfig` in `HTTP`: an address when the value
lives on the heap, the pointee when it has been read out of the heap. -/
structure MonitoringConfig (R : Type) where
  Enabled : Bool
  MonitorLogs : Bool
  MonitorMetrics : Bool
  MetricsPeriod : String
  FailureThreshold : Option Nat
  LogMetrics : Bool
  HTTP : Option R
  Namespace : String
  Pprof : Option PprofConfig
  MonitorTraces : Bool
  APM : APMConfig
  Diagnostics : Diagnostics
  RuntimeManager : String
deriving DecidableEq, Repr

/-- The same settings with another `HTTP` field. -/
def MonitoringConfig.withHTTP {R S : Type} (m : MonitoringConfig R) (http : Option S) :
    MonitoringConfig S :=
  { Enabled := m.Enabled, MonitorLogs := m.MonitorLogs, MonitorMetrics := m.MonitorMetrics,
    MetricsPeriod := m.MetricsPeriod, FailureThreshold := m.FailureThreshold,
    LogMetrics := m.LogMetrics, HTTP := http, Namespace := m.Namespace, Pprof := m.Pprof,
    MonitorTraces := m.MonitorTraces, APM := m.APM, Diagnostics := m.Diagnostics,
    RuntimeManager := m.RuntimeManager }

/-- An address of a heap object. -/
abbrev Ptr := Nat

/-- The heap objects of this package: the allocated `MonitoringHTTPConfig` and
`MonitoringConfig` values, each kind addressed by its position. -/
structure Heap where
  http : List MonitoringHTTPConfig
  config : List (MonitoringConfig Ptr)
deriving DecidableEq, Repr

/-- The composite literal `&MonitoringHTTPConfig{...}`: a new object. -/
def Heap.newHTTP (h : Heap) (v : MonitoringHTTPConfig) : Ptr × Heap :=
  (h.http.length, { h with http := h.http ++ [v] })

/-- The composite literal `&MonitoringConfig{...}`: a new object. -/
def Heap.newConfig (h : Heap) (v : MonitoringConfig Ptr) : Ptr × Heap :=
  (h.config.length, { h with config := h.config ++ [v] })

/-- The settings that `p` points to, with the `HTTP` pointer followed; `none`
when `p` or that pointer dangles. -/
def Heap.load (h : Heap) (p : Ptr) : Option (MonitoringConfig MonitoringHTTPConfig) :=
  match h.config[p]? with
  | none => none
  | some m =>
    match m.HTTP with
    | none => some (m.withHTTP none)
    | some q =>
      match h.http[q]? with
      | none => none
      | some v => some (m.withHTTP (some v))

/-- The assignment `p.HTTP.Port = x`; `none` is the nil-pointer panic. -/
def Heap.setHTTPPort (h : Heap) (p : Ptr) (x : Int) : Option Heap :=
  match h.config[p]? with
  | none => none
  | some m =>
    match m.HTTP with
    | none => none
    | some q =>
      match h.http[q]? with
      | none => none
      | some v => some { h with http := h.http.set q { v with Port := x } }

/-- DefaultConfig creates a config with pre-set default values: it allocates
the HTTP settings and the monitoring settings and returns the address of the
latter together with the heap after the call. -/
def DefaultConfig (h : Heap) : Ptr × Heap :=
  let (http, h) := h.newHTTP
    { Enabled := false, Host := DefaultHost, Port := defaultPort, Buffer := none,
      EnabledIsSet := false }
  h.newConfig
    { Enabled := true, MonitorLogs := true, MonitorMetrics := true, MetricsPeriod := "",
      FailureThreshold := none, LogMetrics := true, MonitorTraces := false,
      HTTP := some http, Namespace := defaultNamespace, Pprof := none,
      APM := defaultAPMConfig, Diagnostics := defaultDiagnostics,
      RuntimeManager := DefaultRuntimeManager }

/-- The `MonitoringHTTPConfig` literal inside `DefaultConfig`. -/
def defaultHTTPCell : MonitoringHTTPConfig :=
  { Enabled := false, Host := DefaultHost, Port := defaultPort, Buffer := none,
    EnabledIsSet := false }

/-- The `MonitoringConfig` literal of `DefaultConfig`, with `http` the address of
its `HTTP` object. -/
def defaultCell (http : Ptr) : MonitoringConfig Ptr :=
  { Enabled := true, MonitorLogs := true, MonitorMetrics := true, MetricsPeriod := "",
    FailureThreshold := none, LogMetrics := true, MonitorTraces := false,
    HTTP := some http, Namespace := defaultNamespace, Pprof := none,
    APM := defaultAPMConfig, Diagnostics := defaultDiagnostics,
    RuntimeManager := DefaultRuntimeManager }

/-! ## Sample values -/

/-- A base with the endpoint on and the flag marked as set. -/
def exBaseOn : MonitoringHTTPConfig :=
  { Enabled := true, Host := "h", Port := 1, Buffer := none, EnabledIsSet := true }

/-- An input that only sets the port. -/
def exInputPort : Input :=
  { enabled := .absent, host := .absent, port := .value 8080, buffer := .absent }

/-- An input that switches the endpoint off and says nothing else. -/
def exInputOff : Input :=
  { enabled := .value false, host := .absent, port := .absent, buffer := .absent }

/-- An input with `port: 70000`. -/
def exInputBadPort : Input :=
  { enabled := .value true, host := .value "example", port := .value 70000, buffer := .absent }

/-- An input with `host: "   "`. -/
def exInputBlankHost : Input :=
  { enabled := .absent, host := .value "   ", port := .absent, buffer := .absent }

/-- An input with `host: "metrics.internal"`. -/
def exInputHost : Input :=
  { enabled := .absent, host := .value "metrics.internal", port := .absent, buffer := .absent }

/-- A base whose host is white space and whose buffer is set. -/
def exBaseBlank : MonitoringHTTPConfig :=
  { Enabled := false, Host := " \t", Port := 9000, Buffer := some { Enabled := true },
    EnabledIsSet := false }

/-- A base whose port is outside the range of the `validate` tag. -/
def exBaseBadPort : MonitoringHTTPConfig :=
  { Enabled := false, Host := "localhost", Port := 70000, Buffer := none, EnabledIsSet := false }

/-- An input without any of the four fields. -/
def exInputEmpty : Input :=
  { enabled := .absent, host := .absent, port := .absent, buffer := .absent }

/-- An input that switches the endpoint on and says nothing else. -/
def exInputOn : Input :=
  { enabled := .value true, host := .absent, port := .absent, buffer := .absent }

/-- An input without `enabled` and with `port: 70000`. -/
def exInputOnlyBadPort : Input :=
  { enabled := .absent, host := .absent, port := .value 70000, buffer := .absent }

/-- An input whose `enabled` is not a boolean and that says nothing else. -/
def exInputBadEnabled : Input :=
  { enabled := .malformed, host := .absent, port := .absent, buffer := .absent }

/-! ## Lemmas on `TrimSpace` -/

theorem dropWhile_all_iff (p : Char → Bool) (l : List Char) :
    (l.dropWhile p).all p = true ↔ l.all p = true := by
  induction l with
  | nil => simp
  | cons a t ih =>
    by_cases ha : p a = true
    · simp [List.dropWhile_cons, ha, ih]
    · simp [List.dropWhile_cons, ha]

/-- The function `TrimSpace` returns the empty string exactly on the strings made of white
space only (the empty string among them). -/
theorem TrimSpace_eq_empty_iff (s : String) :
    TrimSpace s = "" ↔ s.data.all isSpace = true := by
  unfold TrimSpace
  rw [String.ext_iff]
  show ((s.data.dropWhile isSpace).reverse.dropWhile isSpace).reverse = [] ↔ _
  rw [List.reverse_eq_nil_iff, List.dropWhile_eq_nil_iff]
  rw [← dropWhile_all_iff isSpace s.data]
  simp [List.all_eq_true]

theorem TrimSpace_beq_empty (s : String) : (TrimSpace s == "") = blank s := by
  rw [Bool.eq_iff_iff, beq_iff_eq, TrimSpace_eq_empty_iff]
  rfl

/-! ## Lemmas on `Unpack` -/

/-- When the decode step fails, `Unpack` returns its error and the settings are
the ones before the call. -/
theorem Unpack_of_error (c : MonitoringHTTPConfig) (cfg : C) (err : Error)
    (h : cfg.Unpack (baseTmp c) = .error err) : c.Unpack cfg = (some err, c) := by
  unfold MonitoringHTTPConfig.Unpack
  unfold baseTmp at h
  simp only [h]

/-- When the decode step succeeds with `t`, `Unpack` succeeds and the settings
are built from `t` and from `c.Enabled`. -/
theorem Unpack_of_ok (c : MonitoringHTTPConfig) (cfg : C) (t : Tmp)
    (h : cfg.Unpack (baseTmp c) = .ok t) :
    c.Unpack cfg =
      (none, { Enabled := t.Enabled.getD c.Enabled,
               Host := if blank t.Host then DefaultHost else t.Host,
               Port := t.Port, Buffer := t.Buffer, EnabledIsSet := t.Enabled.isSome }) := by
  unfold MonitoringHTTPConfig.Unpack
  unfold baseTmp at h
  simp only [h, TrimSpace_beq_empty]
  cases hb : blank t.Host <;> cases he : t.Enabled <;> simp [he]

/-- The modelled decode succeeds exactly when each of its four fields decodes,
and then holds the four decoded fields. -/
theorem Input.Unpack_eq_ok_iff (i : Input) (tmp t : Tmp) :
    i.Unpack tmp = .ok t ↔
      decodeEnabled tmp.Enabled i.enabled = .ok t.Enabled ∧
      decodeField "host" tmp.Host i.host = .ok t.Host ∧
      decodePort tmp.Port i.port = .ok t.Port ∧
      decodeBuffer tmp.Buffer i.buffer = .ok t.Buffer := by
  unfold Input.Unpack
  cases decodeEnabled tmp.Enabled i.enabled <;>
    cases decodeField "host" tmp.Host i.host <;>
    cases decodePort tmp.Port i.port <;>
    cases decodeBuffer tmp.Buffer i.buffer <;>
    cases t <;> simp

/-- A port outside the declared range never decodes. -/
theorem decodePort_out_of_range (old p : Int) (h : p < 0 ∨ 65535 < p) :
    ∃ err, decodePort old (.value p) = .error err := by
  have hv : validPort p = false := by
    unfold validPort
    rcases h with h | h
    · simp [h]
    · simp [h]
  refine ⟨⟨"validation failed accessing port"⟩, ?_⟩
  simp [decodePort, hv]

/-- The modelled decode either fails or succeeds. -/
theorem Except.error_or_ok {ε α : Type} (r : Except ε α) :
    (∃ e, r = .error e) ∨ (∃ a, r = .ok a) := by
  cases r with
  | error e => exact Or.inl ⟨e, rfl⟩
  | ok a => exact Or.inr ⟨a, rfl⟩

/-! ## Lemmas on the heap -/

theorem lookup_snoc {α : Type} (l : List α) (a : α) : (l ++ [a])[l.length]? = some a := by
  simp

theorem lookup_snoc_fst {α : Type} (l : List α) (a b : α) :
    (l ++ [a] ++ [b])[l.length]? = some a := by
  rw [List.append_assoc, List.getElem?_append_right (Nat.le_refl _)]
  simp

theorem lookup_snoc_snd {α : Type} (l : List α) (a b : α) :
    (l ++ [a] ++ [b])[l.length + 1]? = some b := by
  have h : (l ++ [a] ++ [b])[(l ++ [a]).length]? = some b := lookup_snoc (l ++ [a]) b
  rw [List.length_append, List.length_singleton] at h
  exact h

theorem set_snoc_fst {α : Type} (l : List α) (a b c : α) :
    (l ++ [a] ++ [b]).set l.length c = l ++ [c] ++ [b] := by
  induction l with
  | nil => rfl
  | cons x t ih => simp [ih]

/-- The address and the heap that `DefaultConfig` returns. -/
theorem DefaultConfig_eq (h : Heap) :
    DefaultConfig h =
      (h.config.length,
       { http := h.http ++ [defaultHTTPCell], config := h.config ++ [defaultCell h.http.length] }) :=
  rfl

/-- Reading an object whose `HTTP` pointer is set and valid. -/
theorem load_eq (h : Heap) (p q : Ptr) (m : MonitoringConfig Ptr) (v : MonitoringHTTPConfig)
    (hm : h.config[p]? = some m) (hq : m.HTTP = some q) (hv : h.http[q]? = some v) :
    h.load p = some (m.withHTTP (some v)) := by
  unfold Heap.load
  rw [hm]
  simp only [hq, hv]

/-- Assigning the port through a set and valid `HTTP` pointer. -/
theorem setHTTPPort_eq (h : Heap) (p q : Ptr) (m : MonitoringConfig Ptr)
    (v : MonitoringHTTPConfig) (x : Int)
    (hm : h.config[p]? = some m) (hq : m.HTTP = some q) (hv : h.http[q]? = some v) :
    h.setHTTPPort p x = some { h with http := h.http.set q { v with Port := x } } := by
  unfold Heap.setHTTPPort
  rw [hm]
  simp only [hq, hv]

/-- Reading the result of `DefaultConfig` out of the heap gives the literal of
the source, whatever the heap held before the call. -/
theorem load_DefaultConfig (h : Heap) :
    (DefaultConfig h).2.load (DefaultConfig h).1 =
      some { Enabled := true, MonitorLogs := true, MonitorMetrics := true, MetricsPeriod := "",
             FailureThreshold := none, LogMetrics := true, MonitorTraces := false,
             HTTP := some { Enabled := false, Host := DefaultHost, Port := defaultPort,
                            Buffer := none, EnabledIsSet := false },
             Namespace := defaultNamespace, Pprof := none, APM := defaultAPMConfig,
             Diagnostics := defaultDiagnostics, RuntimeManager := DefaultRuntimeManager } := by
  rw [DefaultConfig_eq]
  exact load_eq ⟨h.http ++ [defaultHTTPCell], h.config ++ [defaultCell h.http.length]⟩
    h.config.length h.http.length _ _ (lookup_snoc _ _) rfl (lookup_snoc _ _)

/-! ## The properties -/

/-- C1. For every pre-existing HTTP settings value `b` (its `EnabledIsSet` may be
true) and every input that has no `enabled` field and decodes successfully,
`Unpack` returns no error and leaves the target with `Enabled = b.Enabled` and
`EnabledIsSet = false`; in particular a base with `Enabled = true` yields
`Enabled = true`, `EnabledIsSet = false`. -/
theorem unpack_enabled_absent (b : MonitoringHTTPConfig) (i : Input) (t : Tmp)
    (habs : i.enabled = .absent) (hok : i.toC.Unpack (baseTmp b) = .ok t) :
    (b.Unpack i.toC).1 = none ∧
    (b.Unpack i.toC).2.Enabled = b.Enabled ∧
    (b.Unpack i.toC).2.EnabledIsSet = false ∧
    (b.Enabled = true →
      (b.Unpack i.toC).2.Enabled = true ∧ (b.Unpack i.toC).2.EnabledIsSet = false) := by
  have hen : t.Enabled = none := by
    have h := ((Input.Unpack_eq_ok_iff i (baseTmp b) t).1 hok).1
    rw [habs] at h
    simpa [decodeEnabled, baseTmp] using h.symm
  rw [Unpack_of_ok b i.toC t hok]
  simp [hen]

/-- The statement C1 at a base with `Enabled = true` and `EnabledIsSet = true`
and an input that only sets the port. -/
theorem unpack_enabled_absent_witness :
    exInputPort.enabled = .absent ∧
    exInputPort.toC.Unpack (baseTmp exBaseOn) =
      .ok { Enabled := none, Host := "h", Port := 8080, Buffer := none } ∧
    (exBaseOn.Unpack exInputPort.toC).1 = none ∧
    (exBaseOn.Unpack exInputPort.toC).2.Enabled = exBaseOn.Enabled ∧
    (exBaseOn.Unpack exInputPort.toC).2.EnabledIsSet = false ∧
    (exBaseOn.Enabled = true →
      (exBaseOn.Unpack exInputPort.toC).2.Enabled = true ∧
      (exBaseOn.Unpack exInputPort.toC).2.EnabledIsSet = false) :=
  ⟨rfl, rfl, unpack_enabled_absent exBaseOn exInputPort _ rfl rfl⟩

/-- C2. For every pre-existing HTTP settings value `b` and every input that
carries `enabled: v` and decodes successfully, `Unpack` returns no error and
leaves the target with `Enabled = v` and `EnabledIsSet = true`, whatever
`b.Enabled` and `b.EnabledIsSet` were; in particular an explicit `false` over a
base with `Enabled = true` yields `Enabled = false`, `EnabledIsSet = true`. -/
theorem unpack_enabled_present (b : MonitoringHTTPConfig) (i : Input) (v : Bool) (t : Tmp)
    (hval : i.enabled = .value v) (hok : i.toC.Unpack (baseTmp b) = .ok t) :
    (b.Unpack i.toC).1 = none ∧
    (b.Unpack i.toC).2.Enabled = v ∧
    (b.Unpack i.toC).2.EnabledIsSet = true ∧
    (v = false → b.Enabled = true →
      (b.Unpack i.toC).2.Enabled = false ∧ (b.Unpack i.toC).2.EnabledIsSet = true) := by
  have hen : t.Enabled = some v := by
    have h := ((Input.Unpack_eq_ok_iff i (baseTmp b) t).1 hok).1
    rw [hval] at h
    simpa [decodeEnabled, baseTmp] using h.symm
  rw [Unpack_of_ok b i.toC t hok]
  simp only [hen, Option.getD_some, Option.isSome_some, true_and, and_true]
  exact fun hv _ => hv

/-- The statement C2 for an explicit `false` over a base that is on. -/
theorem unpack_enabled_present_witness :
    exInputOff.enabled = .value false ∧
    exInputOff.toC.Unpack (baseTmp exBaseOn) =
      .ok { Enabled := some false, Host := "h", Port := 1, Buffer := none } ∧
    (exBaseOn.Unpack exInputOff.toC).1 = none ∧
    (exBaseOn.Unpack exInputOff.toC).2.Enabled = false ∧
    (exBaseOn.Unpack exInputOff.toC).2.EnabledIsSet = true ∧
    (false = false → exBaseOn.Enabled = true →
      (exBaseOn.Unpack exInputOff.toC).2.Enabled = false ∧
      (exBaseOn.Unpack exInputOff.toC).2.EnabledIsSet = true) :=
  ⟨rfl, rfl, unpack_enabled_present exBaseOn exInputOff false _ rfl rfl⟩

/-- C3. Fail-atomicity of `Unpack`: for every pre-existing HTTP settings value
`b` and every configuration object, if the underlying structured decode returns
an error then `Unpack` returns that error and the target is exactly `b`
afterwards: `Host`, `Port`, `Buffer`, `Enabled` and `EnabledIsSet` are all
unchanged. -/
theorem unpack_fail_atomic (b : MonitoringHTTPConfig) (cfg : C) (err : Error)
    (hfail : cfg.Unpack (baseTmp b) = .error err) :
    (b.Unpack cfg).1 = some err ∧ (b.Unpack cfg).2 = b ∧
    (b.Unpack cfg).2.Host = b.Host ∧ (b.Unpack cfg).2.Port = b.Port ∧
    (b.Unpack cfg).2.Buffer = b.Buffer ∧ (b.Unpack cfg).2.Enabled = b.Enabled ∧
    (b.Unpack cfg).2.EnabledIsSet = b.EnabledIsSet := by
  rw [Unpack_of_error b cfg err hfail]
  simp

/-- The statement C3 at an input whose port is out of range, although its
`enabled` and `host` fields would decode. -/
theorem unpack_fail_atomic_witness :
    exInputBadPort.toC.Unpack (baseTmp exBaseOn) =
      .error ⟨"validation failed accessing port"⟩ ∧
    (exBaseOn.Unpack exInputBadPort.toC).1 = some ⟨"validation failed accessing port"⟩ ∧
    (exBaseOn.Unpack exInputBadPort.toC).2 = exBaseOn ∧
    (exBaseOn.Unpack exInputBadPort.toC).2.Host = exBaseOn.Host ∧
    (exBaseOn.Unpack exInputBadPort.toC).2.Port = exBaseOn.Port ∧
    (exBaseOn.Unpack exInputBadPort.toC).2.Buffer = exBaseOn.Buffer ∧
    (exBaseOn.Unpack exInputBadPort.toC).2.Enabled = exBaseOn.Enabled ∧
    (exBaseOn.Unpack exInputBadPort.toC).2.EnabledIsSet = exBaseOn.EnabledIsSet :=
  ⟨rfl, unpack_fail_atomic exBaseOn exInputBadPort.toC _ rfl⟩

/-- C4. Host defaulting in `Unpack`: for every successful decode, writing
`t.Host` for the host held after the structured decode, the resulting `Host` is
`"localhost"` (`DefaultHost`) if `t.Host` is empty or consists only of white
space, and is `t.Host` itself, untrimmed, otherwise. -/
theorem unpack_host_defaulting (b : MonitoringHTTPConfig) (cfg : C) (t : Tmp)
    (hok : cfg.Unpack (baseTmp b) = .ok t) :
    (b.Unpack cfg).1 = none ∧
    DefaultHost = "localhost" ∧
    (t.Host = "" ∨ t.Host.data.all isSpace = true → (b.Unpack cfg).2.Host = "localhost") ∧
    (¬ (t.Host = "" ∨ t.Host.data.all isSpace = true) → (b.Unpack cfg).2.Host = t.Host) := by
  have hempty : t.Host = "" → t.Host.data.all isSpace = true := by
    intro h
    rw [h]
    rfl
  rw [Unpack_of_ok b cfg t hok]
  refine ⟨rfl, rfl, ?_, ?_⟩
  · intro h
    have hb : blank t.Host = true := h.elim hempty id
    simp [hb, DefaultHost]
  · intro h
    have hb : blank t.Host = false := by
      cases hx : blank t.Host
      · rfl
      · exact absurd (Or.inr hx) h
    simp [hb]

/-- The statement C4 at `host: "   "`, which yields `"localhost"`, and at
`host: "metrics.internal"`, which is kept; `" a "` is kept with its spaces. -/
theorem unpack_host_defaulting_witness :
    (exBaseOn.Unpack exInputBlankHost.toC).2.Host = "localhost" ∧
    (exBaseOn.Unpack exInputHost.toC).2.Host = "metrics.internal" ∧
    (exBaseOn.Unpack
      (Input.toC { enabled := .absent, host := .value " a ", port := .absent,
                   buffer := .absent })).2.Host = " a " :=
  ⟨(unpack_host_defaulting exBaseOn exInputBlankHost.toC
      { Enabled := none, Host := "   ", Port := 1, Buffer := none } rfl).2.2.1
      (Or.inr (by decide)),
   (unpack_host_defaulting exBaseOn exInputHost.toC
      { Enabled := none, Host := "metrics.internal", Port := 1, Buffer := none } rfl).2.2.2
      (by decide),
   (unpack_host_defaulting exBaseOn
      (Input.toC { enabled := .absent, host := .value " a ", port := .absent,
                   buffer := .absent })
      { Enabled := none, Host := " a ", Port := 1, Buffer := none } rfl).2.2.2
      (by decide)⟩

/-- C5. For every pre-existing HTTP settings value `b` and every input whose
`port` field is an integer outside [0, 65535], `Unpack` fails with an error and
leaves the target equal to `b`. -/
theorem unpack_port_out_of_range (b : MonitoringHTTPConfig) (i : Input) (p : Int)
    (hport : i.port = .value p) (hrange : p < 0 ∨ 65535 < p) :
    (∃ err, (b.Unpack i.toC).1 = some err) ∧ (b.Unpack i.toC).2 = b := by
  rcases Except.error_or_ok (i.toC.Unpack (baseTmp b)) with ⟨err, he⟩ | ⟨t, ht⟩
  · rw [Unpack_of_error b i.toC err he]
    exact ⟨⟨err, rfl⟩, rfl⟩
  · exfalso
    have h := ((Input.Unpack_eq_ok_iff i (baseTmp b) t).1 ht).2.2.1
    rw [hport] at h
    obtain ⟨err, he⟩ := decodePort_out_of_range (baseTmp b).Port p hrange
    rw [he] at h
    cases h

/-- The statement C5 at `port: 70000` and at `port: -1`. -/
theorem unpack_port_out_of_range_witness :
    ((∃ err, (exBaseOn.Unpack exInputBadPort.toC).1 = some err) ∧
      (exBaseOn.Unpack exInputBadPort.toC).2 = exBaseOn) ∧
    ((∃ err, (exBaseBlank.Unpack
        (Input.toC { enabled := .absent, host := .absent, port := .value (-1),
                     buffer := .absent })).1 = some err) ∧
      (exBaseBlank.Unpack
        (Input.toC { enabled := .absent, host := .absent, port := .value (-1),
                     buffer := .absent })).2 = exBaseBlank) :=
  ⟨unpack_port_out_of_range exBaseOn exInputBadPort 70000 rfl (Or.inr (by decide)),
   unpack_port_out_of_range exBaseBlank _ (-1) rfl (Or.inl (by decide))⟩

/-- C6. Merge base for host, port and buffer: for every pre-existing HTTP
settings value `b` and every successfully decoded input that omits `host`,
`port` and `buffer`, `Unpack` yields `Port = b.Port`, `Buffer = b.Buffer` and
`Host = b.Host` (or `"localhost"` when `b.Host` is blank), whether `enabled` is
absent, true or false in the input; in particular, decoding such an input over
the `HTTP` settings of `DefaultConfig()` yields `Host = "localhost"` and
`Port = 6791`. -/
theorem unpack_merge_base (b : MonitoringHTTPConfig) (i : Input) (t : Tmp)
    (hhost : i.host = .absent) (hport : i.port = .absent) (hbuf : i.buffer = .absent)
    (hok : i.toC.Unpack (baseTmp b) = .ok t) :
    ((b.Unpack i.toC).1 = none ∧
     (b.Unpack i.toC).2.Port = b.Port ∧
     (b.Unpack i.toC).2.Buffer = b.Buffer ∧
     (b.Unpack i.toC).2.Host = (if blank b.Host then "localhost" else b.Host)) ∧
    (∀ (heap : Heap) (d : MonitoringHTTPConfig) (t0 : Tmp),
      ((DefaultConfig heap).2.load (DefaultConfig heap).1).bind (fun m => m.HTTP) = some d →
      i.toC.Unpack (baseTmp d) = .ok t0 →
      (d.Unpack i.toC).1 = none ∧ (d.Unpack i.toC).2.Host = "localhost" ∧
      (d.Unpack i.toC).2.Port = 6791) := by
  have key : ∀ (c : MonitoringHTTPConfig) (u : Tmp), i.toC.Unpack (baseTmp c) = .ok u →
      (c.Unpack i.toC).1 = none ∧ (c.Unpack i.toC).2.Port = c.Port ∧
      (c.Unpack i.toC).2.Buffer = c.Buffer ∧
      (c.Unpack i.toC).2.Host = (if blank c.Host then "localhost" else c.Host) := by
    intro c u hu
    obtain ⟨-, h1, h2, h3⟩ := (Input.Unpack_eq_ok_iff i (baseTmp c) u).1 hu
    rw [hhost] at h1
    rw [hport] at h2
    rw [hbuf] at h3
    simp only [decodeField, decodePort, decodeBuffer, baseTmp, Except.ok.injEq] at h1 h2 h3
    rw [Unpack_of_ok c i.toC u hu]
    simp [← h1, ← h2, ← h3, DefaultHost]
  refine ⟨key b t hok, ?_⟩
  intro heap d t0 hd ht0
  rw [load_DefaultConfig] at hd
  simp only [Option.some_bind, Option.some.injEq] at hd
  obtain ⟨h0, h1, _, h3⟩ := key d t0 ht0
  refine ⟨h0, ?_, ?_⟩
  · rw [h3, ← hd]
    decide
  · rw [h1, ← hd]
    rfl

/-- The statement C6 at a base with a blank host and a buffer, and an input
that only carries `enabled: false`. -/
theorem unpack_merge_base_witness :
    (exBaseBlank.Unpack exInputOff.toC).2 =
      { Enabled := false, Host := "localhost", Port := 9000, Buffer := some { Enabled := true },
        EnabledIsSet := true } ∧
    (exBaseBlank.Unpack exInputOff.toC).2.Port = exBaseBlank.Port ∧
    (exBaseBlank.Unpack exInputOff.toC).2.Buffer = exBaseBlank.Buffer ∧
    ((defaultHTTPCell.Unpack exInputOff.toC).1 = none ∧
      (defaultHTTPCell.Unpack exInputOff.toC).2.Host = "localhost" ∧
      (defaultHTTPCell.Unpack exInputOff.toC).2.Port = 6791) :=
  ⟨by decide,
   (unpack_merge_base exBaseBlank exInputOff
      { Enabled := some false, Host := " \t", Port := 9000, Buffer := some { Enabled := true } }
      rfl rfl rfl rfl).1.2.1,
   (unpack_merge_base exBaseBlank exInputOff
      { Enabled := some false, Host := " \t", Port := 9000, Buffer := some { Enabled := true } }
      rfl rfl rfl rfl).1.2.2.1,
   (unpack_merge_base exBaseBlank exInputOff
      { Enabled := some false, Host := " \t", Port := 9000, Buffer := some { Enabled := true } }
      rfl rfl rfl rfl).2 ⟨[], []⟩ defaultHTTPCell
      { Enabled := some false, Host := "localhost", Port := 6791, Buffer := none } rfl rfl⟩

/-- C7. `DefaultConfig()` returns exactly the literal value: `Enabled = true`,
`MonitorLogs = true`, `MonitorMetrics = true`, `MonitorTraces = false`,
`HTTP = {Enabled = false, Host = "localhost", Port = 6791, Buffer = nil,
EnabledIsSet = false}`, `Namespace = "default"` (non-empty),
`RuntimeManager = "process"` (a member of the closed set of `"process"` and
`"otel"`), `APM` the empty APM settings, `Diagnostics` the default diagnostics
settings, with `FailureThreshold` and `Pprof` absent and `MetricsPeriod` empty;
the remaining field, `LogMetrics`, is true. -/
theorem DefaultConfig_literal (h : Heap) :
    (DefaultConfig h).2.load (DefaultConfig h).1 =
      some { Enabled := true, MonitorLogs := true, MonitorMetrics := true,
             MonitorTraces := false,
             HTTP := some { Enabled := false, Host := "localhost", Port := 6791,
                            Buffer := none, EnabledIsSet := false },
             Namespace := "default", RuntimeManager := "process",
             APM := { Environment := "", APIKey := "", SecretToken := "", Hosts := none,
                      GlobalLabels := none,
                      TLS := { SkipVerify := false, ServerCertificate := "", ServerCA := "" },
                      SamplingRate := none },
             Diagnostics := defaultDiagnostics,
             FailureThreshold := none, Pprof := none, MetricsPeriod := "",
             LogMetrics := true } ∧
    defaultNamespace = "default" ∧ defaultNamespace ≠ "" ∧
    DefaultRuntimeManager = "process" ∧
    DefaultRuntimeManager ∈ [ProcessRuntimeManager, OtelRuntimeManager] ∧
    [ProcessRuntimeManager, OtelRuntimeManager] = ["process", "otel"] := by
  refine ⟨load_DefaultConfig h, rfl, by decide, rfl, by decide, rfl⟩

/-- C8. Two calls of `DefaultConfig()` yield field-for-field-equal values that
share no mutable sub-object: the two results and their two `HTTP` objects are
different objects holding equal values, and after setting `HTTP.Port` of the
first result to any value `x` the first result has port `x` while the second
result still has `HTTP.Port = 6791`, is unchanged, and equals a fresh
`DefaultConfig()`. -/
theorem DefaultConfig_independent (h : Heap) (x : Int) :
    (DefaultConfig h).1 ≠ (DefaultConfig (DefaultConfig h).2).1 ∧
    (∃ m1 m2 q1 q2,
      (DefaultConfig (DefaultConfig h).2).2.config[(DefaultConfig h).1]? = some m1 ∧
      (DefaultConfig (DefaultConfig h).2).2.config[(DefaultConfig (DefaultConfig h).2).1]?
        = some m2 ∧
      m1.HTTP = some q1 ∧ m2.HTTP = some q2 ∧ q1 ≠ q2) ∧
    (DefaultConfig (DefaultConfig h).2).2.load (DefaultConfig h).1 =
      (DefaultConfig (DefaultConfig h).2).2.load (DefaultConfig (DefaultConfig h).2).1 ∧
    (DefaultConfig (DefaultConfig h).2).2.load (DefaultConfig h).1 =
      (DefaultConfig h).2.load (DefaultConfig h).1 ∧
    (∃ h3, (DefaultConfig (DefaultConfig h).2).2.setHTTPPort (DefaultConfig h).1 x = some h3 ∧
      ((h3.load (DefaultConfig h).1).bind (fun m => m.HTTP)).map (fun c => c.Port) = some x ∧
      ((h3.load (DefaultConfig (DefaultConfig h).2).1).bind (fun m => m.HTTP)).map
        (fun c => c.Port) = some 6791 ∧
      h3.load (DefaultConfig (DefaultConfig h).2).1 =
        (DefaultConfig (DefaultConfig h).2).2.load (DefaultConfig (DefaultConfig h).2).1 ∧
      h3.load (DefaultConfig (DefaultConfig h).2).1 =
        (DefaultConfig h3).2.load (DefaultConfig h3).1) := by
  obtain ⟨hs, cs⟩ := h
  have fresh := load_DefaultConfig
    ⟨hs ++ [{ defaultHTTPCell with Port := x }] ++ [defaultHTTPCell],
     cs ++ [defaultCell hs.length] ++ [defaultCell (hs.length + 1)]⟩
  simp only [DefaultConfig_eq, List.length_append, List.length_singleton]
  have c1 : (cs ++ [defaultCell hs.length] ++ [defaultCell (hs.length + 1)])[cs.length]? =
      some (defaultCell hs.length) := lookup_snoc_fst _ _ _
  have c2 : (cs ++ [defaultCell hs.length] ++ [defaultCell (hs.length + 1)])[cs.length + 1]? =
      some (defaultCell (hs.length + 1)) := lookup_snoc_snd _ _ _
  have v1 : (hs ++ [defaultHTTPCell] ++ [defaultHTTPCell])[hs.length]? = some defaultHTTPCell :=
    lookup_snoc_fst _ _ _
  have v2 : (hs ++ [defaultHTTPCell] ++ [defaultHTTPCell])[hs.length + 1]? =
      some defaultHTTPCell := lookup_snoc_snd _ _ _
  have l1 := load_eq ⟨hs ++ [defaultHTTPCell] ++ [defaultHTTPCell],
    cs ++ [defaultCell hs.length] ++ [defaultCell (hs.length + 1)]⟩ _ _ _ _ c1 rfl v1
  have l2 := load_eq ⟨hs ++ [defaultHTTPCell] ++ [defaultHTTPCell],
    cs ++ [defaultCell hs.length] ++ [defaultCell (hs.length + 1)]⟩ _ _ _ _ c2 rfl v2
  have l0 := load_eq ⟨hs ++ [defaultHTTPCell], cs ++ [defaultCell hs.length]⟩ _ _ _ _
    (lookup_snoc _ _) rfl (lookup_snoc _ _)
  have s1 := setHTTPPort_eq ⟨hs ++ [defaultHTTPCell] ++ [defaultHTTPCell],
    cs ++ [defaultCell hs.length] ++ [defaultCell (hs.length + 1)]⟩ _ _ _ _ x c1 rfl v1
  simp only [set_snoc_fst] at s1
  have w1 : (hs ++ [{ defaultHTTPCell with Port := x }] ++ [defaultHTTPCell])[hs.length]? =
      some { defaultHTTPCell with Port := x } := lookup_snoc_fst _ _ _
  have w2 : (hs ++ [{ defaultHTTPCell with Port := x }] ++ [defaultHTTPCell])[hs.length + 1]? =
      some defaultHTTPCell := lookup_snoc_snd _ _ _
  have m1 := load_eq ⟨hs ++ [{ defaultHTTPCell with Port := x }] ++ [defaultHTTPCell],
    cs ++ [defaultCell hs.length] ++ [defaultCell (hs.length + 1)]⟩ _ _ _ _ c1 rfl w1
  have m2 := load_eq ⟨hs ++ [{ defaultHTTPCell with Port := x }] ++ [defaultHTTPCell],
    cs ++ [defaultCell hs.length] ++ [defaultCell (hs.length + 1)]⟩ _ _ _ _ c2 rfl w2
  refine ⟨?_, ⟨_, _, _, _, c1, c2, rfl, rfl, ?_⟩, ?_, ?_, _, s1, ?_, ?_, ?_, ?_⟩
  · exact Nat.ne_of_lt (Nat.lt_succ_self _)
  · exact Nat.ne_of_lt (Nat.lt_succ_self _)
  · rw [l1, l2]
    rfl
  · rw [l1, l0]
  · rw [m1]
    rfl
  · rw [m2]
    rfl
  · rw [m2, l2]
  · rw [m2]
    exact fresh.symm

/-- C9. The default diagnostics settings (`defaultDiagnostics()`, and therefore
the `Diagnostics` of `DefaultConfig()`) have `Uploader.MaxRetries = 10`,
`Uploader.InitDur` = 1 second, `Uploader.MaxDur` = 10 minutes (600 times
`InitDur`), `Limit.Interval` = 1 minute and `Limit.Burst = 1`, the durations
being exact integer counts of nanoseconds. -/
theorem defaultDiagnostics_values :
    defaultDiagnostics.Uploader.MaxRetries = 10 ∧
    defaultDiagnostics.Uploader.InitDur = Second ∧
    defaultDiagnostics.Uploader.InitDur = 1000000000 ∧
    defaultDiagnostics.Uploader.MaxDur = 10 * Minute ∧
    defaultDiagnostics.Uploader.MaxDur = 600000000000 ∧
    defaultDiagnostics.Uploader.MaxDur = 600 * defaultDiagnostics.Uploader.InitDur ∧
    defaultDiagnostics.Limit.Interval = Minute ∧
    defaultDiagnostics.Limit.Interval = 60000000000 ∧
    defaultDiagnostics.Limit.Burst = 1 ∧
    (∀ h : Heap, ((DefaultConfig h).2.load (DefaultConfig h).1).map (fun m => m.Diagnostics) =
      some defaultDiagnostics) := by
  refine ⟨rfl, rfl, by decide, by decide, by decide, by decide, rfl, by decide, rfl, ?_⟩
  intro h
  rw [load_DefaultConfig]
  rfl

/-- C10. Host invariant: for every pre-existing HTTP settings value (its `Host`
may be empty or white space only) and every configuration object, after a
successful `Unpack` the `Host` of the target is non-empty and is not white space
only; the `HTTP` settings of `DefaultConfig()` satisfy the invariant as well. -/
theorem unpack_host_invariant (b : MonitoringHTTPConfig) (cfg : C)
    (hok : (b.Unpack cfg).1 = none) :
    ((b.Unpack cfg).2.Host ≠ "" ∧ (b.Unpack cfg).2.Host.data.all isSpace = false ∧
      TrimSpace (b.Unpack cfg).2.Host ≠ "") ∧
    (∀ (heap : Heap) (d : MonitoringHTTPConfig),
      ((DefaultConfig heap).2.load (DefaultConfig heap).1).bind (fun m => m.HTTP) = some d →
      d.Host ≠ "" ∧ d.Host.data.all isSpace = false ∧ TrimSpace d.Host ≠ "") := by
  have key : ∀ s : String, blank s = false →
      s ≠ "" ∧ s.data.all isSpace = false ∧ TrimSpace s ≠ "" := by
    intro s hs
    refine ⟨?_, hs, ?_⟩
    · intro h
      rw [h] at hs
      exact absurd hs (by decide)
    · intro h
      rw [TrimSpace_eq_empty_iff] at h
      exact absurd (h.symm.trans hs) (by decide)
  constructor
  · rcases Except.error_or_ok (cfg.Unpack (baseTmp b)) with ⟨err, he⟩ | ⟨t, ht⟩
    · rw [Unpack_of_error b cfg err he] at hok
      cases hok
    · rw [Unpack_of_ok b cfg t ht]
      apply key
      show blank (if blank t.Host then DefaultHost else t.Host) = false
      have hd : blank DefaultHost = false := by decide
      cases hb : blank t.Host
      · simpa using hb
      · simpa using hd
  · intro heap d hd
    rw [load_DefaultConfig] at hd
    simp only [Option.some_bind, Option.some.injEq] at hd
    rw [← hd]
    exact key DefaultHost (by decide)

/-- The statement C10 at a base whose host is white space only and an input
that omits `host`. -/
theorem unpack_host_invariant_witness :
    exBaseBlank.Host.data.all isSpace = true ∧
    (exBaseBlank.Unpack exInputOff.toC).1 = none ∧
    (exBaseBlank.Unpack exInputOff.toC).2.Host ≠ "" ∧
    (exBaseBlank.Unpack exInputOff.toC).2.Host.data.all isSpace = false ∧
    TrimSpace (exBaseBlank.Unpack exInputOff.toC).2.Host ≠ "" :=
  ⟨by decide, rfl, (unpack_host_invariant exBaseBlank exInputOff.toC rfl).1⟩

/-! ## Further lemmas on `Unpack` -/

/-- A call of `Unpack` that returns no error had a successful decode. -/
theorem decode_ok_of_Unpack (c : MonitoringHTTPConfig) (cfg : C)
    (h : (c.Unpack cfg).1 = none) : ∃ t, cfg.Unpack (baseTmp c) = .ok t := by
  rcases Except.error_or_ok (cfg.Unpack (baseTmp c)) with ⟨err, he⟩ | ⟨t, ht⟩
  · rw [Unpack_of_error c cfg err he] at h
    cases h
  · exact ⟨t, ht⟩

/-- A port that decodes is the port of the target when the field is absent and
a port in the declared range when it is present. -/
theorem decodePort_ok (old p : Int) (f : Field Int) (h : decodePort old f = .ok p) :
    (f = .absent ∧ p = old) ∨ (f = .value p ∧ 0 ≤ p ∧ p ≤ 65535) := by
  cases f with
  | absent =>
    simp only [decodePort, Except.ok.injEq] at h
    exact Or.inl ⟨rfl, h.symm⟩
  | malformed => simp [decodePort] at h
  | value q =>
    simp only [decodePort] at h
    by_cases hv : validPort q = true
    · rw [if_pos hv] at h
      simp only [Except.ok.injEq] at h
      subst h
      simp only [validPort, Bool.and_eq_true, decide_eq_true_eq] at hv
      exact Or.inr ⟨rfl, hv.1, hv.2⟩
    · rw [if_neg hv] at h
      cases h

/-- What a successful `Unpack` over the modelled source leaves in `Enabled` and
`EnabledIsSet`, read off the `enabled` field of the input. -/
theorem Unpack_enabled_of_ok (c : MonitoringHTTPConfig) (i : Input)
    (h : (c.Unpack i.toC).1 = none) :
    (i.enabled = .absent →
      (c.Unpack i.toC).2.Enabled = c.Enabled ∧ (c.Unpack i.toC).2.EnabledIsSet = false) ∧
    (∀ v, i.enabled = .value v →
      (c.Unpack i.toC).2.Enabled = v ∧ (c.Unpack i.toC).2.EnabledIsSet = true) ∧
    i.enabled ≠ .malformed := by
  obtain ⟨t, ht⟩ := decode_ok_of_Unpack c i.toC h
  have he := ((Input.Unpack_eq_ok_iff i (baseTmp c) t).1 ht).1
  rw [Unpack_of_ok c i.toC t ht]
  refine ⟨?_, ?_, ?_⟩
  · intro ha
    rw [ha] at he
    have hn : t.Enabled = none := by simpa [decodeEnabled, baseTmp] using he.symm
    simp [hn]
  · intro v hv
    rw [hv] at he
    have hn : t.Enabled = some v := by simpa [decodeEnabled, baseTmp] using he.symm
    simp [hn]
  · intro hm
    rw [hm] at he
    simp [decodeEnabled] at he

/-- Decoding the same `port` field over the port it produced gives that port
again. -/
theorem decodePort_idem (old p : Int) (f : Field Int) (h : decodePort old f = .ok p) :
    decodePort p f = .ok p := by
  rcases decodePort_ok old p f h with ⟨ha, _⟩ | ⟨hv, _⟩
  · rw [ha]
    rfl
  · rw [hv] at h ⊢
    exact h

/-- Decoding the same `buffer` block over the buffer it produced gives that
buffer again. -/
theorem decodeBuffer_idem (old x : Option BufferConfig) (f : Field BufferInput)
    (h : decodeBuffer old f = .ok x) : decodeBuffer x f = .ok x := by
  cases f with
  | absent => rfl
  | malformed => simp [decodeBuffer] at h
  | value bi =>
    cases hb : bi.enabled with
    | absent =>
      simp only [decodeBuffer, decodeField, hb, Except.ok.injEq] at h ⊢
      rw [← h]
      rfl
    | value v =>
      simp only [decodeBuffer, decodeField, hb, Except.ok.injEq] at h ⊢
      exact h
    | malformed => simp [decodeBuffer, decodeField, hb] at h

/-- The host that `Unpack` stores is never blank. -/
theorem blank_stored_host (s : String) :
    blank (if blank s then DefaultHost else s) = false := by
  have hd : blank DefaultHost = false := by decide
  cases hb : blank s
  · simpa using hb
  · simpa using hd

/-- Decoding the same `host` field over the host that `Unpack` stored leads to
the same stored host. -/
theorem decodeHost_idem (old h : String) (f : Field String)
    (hdec : decodeField "host" old f = .ok h) :
    ∃ h2, decodeField "host" (if blank h then DefaultHost else h) f = .ok h2 ∧
      (if blank h2 then DefaultHost else h2) = (if blank h then DefaultHost else h) := by
  cases f with
  | absent =>
    refine ⟨_, rfl, ?_⟩
    rw [blank_stored_host]
    rfl
  | value v =>
    simp only [decodeField, Except.ok.injEq] at hdec
    subst hdec
    exact ⟨v, rfl, rfl⟩
  | malformed => simp [decodeField] at hdec

/-- An `enabled` field that is absent or a boolean decodes. -/
theorem decodeEnabled_ok (old : Option Bool) (f : Field Bool) (h : f ≠ .malformed) :
    ∃ e, decodeEnabled old f = .ok e := by
  cases f with
  | absent => exact ⟨old, rfl⟩
  | value v => exact ⟨some v, rfl⟩
  | malformed => exact absurd rfl h

/-- A successful decode carries over to a second base and a second input that
agree with the first on host, port and buffer, when the `enabled` field of the
second input is absent or a boolean: the second decode succeeds with the same
host, port and buffer. -/
theorem decode_transfer (b1 b2 : MonitoringHTTPConfig) (i1 i2 : Input)
    (hH : b1.Host = b2.Host) (hP : b1.Port = b2.Port) (hB : b1.Buffer = b2.Buffer)
    (hh : i1.host = i2.host) (hp : i1.port = i2.port) (hb : i1.buffer = i2.buffer)
    (he2 : i2.enabled ≠ .malformed) (t1 : Tmp) (h1 : i1.Unpack (baseTmp b1) = .ok t1) :
    ∃ e2, i2.Unpack (baseTmp b2) =
      .ok { Enabled := e2, Host := t1.Host, Port := t1.Port, Buffer := t1.Buffer } := by
  obtain ⟨-, d1, d2, d3⟩ := (Input.Unpack_eq_ok_iff i1 (baseTmp b1) t1).1 h1
  obtain ⟨e2, hd⟩ := decodeEnabled_ok (baseTmp b2).Enabled i2.enabled he2
  refine ⟨e2, (Input.Unpack_eq_ok_iff i2 (baseTmp b2) _).2 ⟨hd, ?_, ?_, ?_⟩⟩
  · rw [← hh]
    show decodeField "host" b2.Host i1.host = .ok t1.Host
    rw [← hH]
    exact d1
  · rw [← hp]
    show decodePort b2.Port i1.port = .ok t1.Port
    rw [← hP]
    exact d2
  · rw [← hb]
    show decodeBuffer b2.Buffer i1.buffer = .ok t1.Buffer
    rw [← hB]
    exact d3

/-- After a successful `Unpack` over the modelled source, `EnabledIsSet` tells
whether the input carries `enabled`. -/
theorem Unpack_isSet_of_ok (c : MonitoringHTTPConfig) (i : Input)
    (h : (c.Unpack i.toC).1 = none) : (c.Unpack i.toC).2.EnabledIsSet = i.enabled.present := by
  obtain ⟨ha, hv, hm⟩ := Unpack_enabled_of_ok c i h
  cases he : i.enabled with
  | absent => exact (ha he).2
  | value v => exact (hv v he).2
  | malformed => exact absurd he hm

/-! ## The properties, continued -/

/-- C11, the statement as given fails: over a base whose own port is 70000, an
input that omits `port` decodes, `Unpack` succeeds, and the port of the target
is 70000, outside [0, 65535]. -/
theorem unpack_port_range_counterexample :
    exInputEmpty.port = .absent ∧
    (exBaseBadPort.Unpack exInputEmpty.toC).1 = none ∧
    (exBaseBadPort.Unpack exInputEmpty.toC).2.Port = 70000 ∧
    ¬ (0 ≤ (exBaseBadPort.Unpack exInputEmpty.toC).2.Port ∧
       (exBaseBadPort.Unpack exInputEmpty.toC).2.Port ≤ 65535) := by
  refine ⟨rfl, rfl, rfl, ?_⟩
  decide

/-- C11, amended. Port range on success: for every pre-existing HTTP settings
value `b` and every input, if `Unpack` succeeds and the input carries a `port`
field or `b.Port` is itself in [0, 65535], then the `Port` of the target is an
integer in [0, 65535]; when the input omits `port`, the `Port` of the target is
`b.Port` unchanged, so a base whose own `Port` is outside the range keeps it. -/
theorem unpack_port_range (b : MonitoringHTTPConfig) (i : Input)
    (hok : (b.Unpack i.toC).1 = none) :
    (i.port ≠ .absent ∨ (0 ≤ b.Port ∧ b.Port ≤ 65535) →
      0 ≤ (b.Unpack i.toC).2.Port ∧ (b.Unpack i.toC).2.Port ≤ 65535) ∧
    (i.port = .absent → (b.Unpack i.toC).2.Port = b.Port) ∧
    (i.port = .absent → ¬ (0 ≤ b.Port ∧ b.Port ≤ 65535) →
      ¬ (0 ≤ (b.Unpack i.toC).2.Port ∧ (b.Unpack i.toC).2.Port ≤ 65535)) := by
  obtain ⟨t, ht⟩ := decode_ok_of_Unpack b i.toC hok
  have hp := ((Input.Unpack_eq_ok_iff i (baseTmp b) t).1 ht).2.2.1
  rw [Unpack_of_ok b i.toC t ht]
  show (i.port ≠ .absent ∨ (0 ≤ b.Port ∧ b.Port ≤ 65535) → 0 ≤ t.Port ∧ t.Port ≤ 65535) ∧
    (i.port = .absent → t.Port = b.Port) ∧
    (i.port = .absent → ¬ (0 ≤ b.Port ∧ b.Port ≤ 65535) → ¬ (0 ≤ t.Port ∧ t.Port ≤ 65535))
  rcases decodePort_ok _ _ _ hp with ⟨habs, heq⟩ | ⟨hval, hr⟩
  · have heq2 : t.Port = b.Port := heq
    refine ⟨?_, fun _ => heq2, ?_⟩
    · intro hsrc
      have hb : 0 ≤ b.Port ∧ b.Port ≤ 65535 := hsrc.elim (fun h => absurd habs h) id
      rw [heq2]
      exact hb
    · intro _ hout
      rw [heq2]
      exact hout
  · have hne : i.port ≠ .absent := by
      rw [hval]
      intro h
      cases h
    exact ⟨fun _ => hr, fun habs => absurd habs hne, fun habs => absurd habs hne⟩

/-- The statement C11, amended, at an input with `port: 8080` over the base with
port 70000, at an input without `port` over a base with port 1, and at an input
without `port` over the base with port 70000, which keeps that port. -/
theorem unpack_port_range_witness :
    (0 ≤ (exBaseBadPort.Unpack exInputPort.toC).2.Port ∧
      (exBaseBadPort.Unpack exInputPort.toC).2.Port ≤ 65535) ∧
    (0 ≤ (exBaseOn.Unpack exInputOff.toC).2.Port ∧
      (exBaseOn.Unpack exInputOff.toC).2.Port ≤ 65535) ∧
    (exBaseBadPort.Unpack exInputEmpty.toC).1 = none ∧
    (exBaseBadPort.Unpack exInputEmpty.toC).2.Port = exBaseBadPort.Port ∧
    exBaseBadPort.Port = 70000 ∧
    ¬ (0 ≤ (exBaseBadPort.Unpack exInputEmpty.toC).2.Port ∧
       (exBaseBadPort.Unpack exInputEmpty.toC).2.Port ≤ 65535) :=
  ⟨(unpack_port_range exBaseBadPort exInputPort rfl).1 (Or.inl (by decide)),
   (unpack_port_range exBaseOn exInputOff rfl).1 (Or.inr (by decide)),
   rfl,
   (unpack_port_range exBaseBadPort exInputEmpty rfl).2.1 rfl,
   rfl,
   (unpack_port_range exBaseBadPort exInputEmpty rfl).2.2 rfl (by decide)⟩

/-- C12. `Unpack` returns an error if and only if the underlying structured
decode returns one, and then it is that error: whenever the decode succeeds,
`Unpack` succeeds and overwrites the target with the newly constructed value
(host, port, buffer, enabled, provenance flag), and no configuration object
makes it panic, the optional `enabled` being dereferenced only where it is
present. -/
theorem unpack_error_iff (b : MonitoringHTTPConfig) (cfg : C) :
    b.UnpackOrPanic cfg = some (b.Unpack cfg) ∧
    ((b.Unpack cfg).1 ≠ none ↔ ∃ err, cfg.Unpack (baseTmp b) = .error err) ∧
    (∀ err, cfg.Unpack (baseTmp b) = .error err → (b.Unpack cfg).1 = some err) ∧
    (∀ t, cfg.Unpack (baseTmp b) = .ok t →
      b.Unpack cfg =
        (none, { Enabled := match t.Enabled with
                            | none => b.Enabled
                            | some v => v,
                 Host := if t.Host = "" ∨ t.Host.data.all isSpace = true then "localhost"
                         else t.Host,
                 Port := t.Port, Buffer := t.Buffer,
                 EnabledIsSet := match t.Enabled with
                                 | none => false
                                 | some _ => true })) := by
  refine ⟨?_, ?_, ?_, ?_⟩
  · rcases Except.error_or_ok (cfg.Unpack (baseTmp b)) with ⟨err, he⟩ | ⟨t, ht⟩
    · rw [Unpack_of_error b cfg err he]
      unfold MonitoringHTTPConfig.UnpackOrPanic
      unfold baseTmp at he
      simp only [he]
    · rw [Unpack_of_ok b cfg t ht]
      unfold MonitoringHTTPConfig.UnpackOrPanic
      unfold baseTmp at ht
      simp only [ht, TrimSpace_beq_empty]
      cases hb : blank t.Host <;> cases he : t.Enabled <;> simp [he]
  · constructor
    · intro h
      rcases Except.error_or_ok (cfg.Unpack (baseTmp b)) with ⟨err, he⟩ | ⟨t, ht⟩
      · exact ⟨err, he⟩
      · rw [Unpack_of_ok b cfg t ht] at h
        exact absurd rfl h
    · rintro ⟨err, he⟩
      rw [Unpack_of_error b cfg err he]
      simp
  · intro err he
    rw [Unpack_of_error b cfg err he]
  · intro t ht
    rw [Unpack_of_ok b cfg t ht]
    have hor : (t.Host = "" ∨ t.Host.data.all isSpace = true) ↔ blank t.Host = true := by
      constructor
      · intro h
        rcases h with h | h
        · rw [h]
          rfl
        · exact h
      · exact Or.inr
    have hif : (if t.Host = "" ∨ t.Host.data.all isSpace = true then "localhost" else t.Host) =
        (if blank t.Host then DefaultHost else t.Host) := by
      by_cases hc : blank t.Host = true
      · rw [if_pos (hor.2 hc), if_pos hc]
        rfl
      · rw [if_neg (fun h => hc (hor.1 h)), if_neg hc]
    rw [hif]
    cases he : t.Enabled <;> rfl

/-- The statement C12 at an input that decodes and at one that does not. -/
theorem unpack_error_iff_witness :
    exBaseOn.UnpackOrPanic exInputOff.toC =
      some (none, { Enabled := false, Host := "h", Port := 1, Buffer := none,
                    EnabledIsSet := true }) ∧
    (exBaseOn.Unpack exInputBadPort.toC).1 = some ⟨"validation failed accessing port"⟩ :=
  ⟨(unpack_error_iff exBaseOn exInputOff.toC).1,
   (unpack_error_iff exBaseOn exInputBadPort.toC).2.2.1 _ rfl⟩

/-- C13, the statement as given fails: after a run with `enabled: true`, a second
run whose input has no `enabled` field but does not decode (`port: 70000`)
returns an error and leaves `EnabledIsSet = true`, not `false`. -/
theorem unpack_provenance_counterexample :
    exInputOn.enabled = .value true ∧
    exInputOnlyBadPort.enabled = .absent ∧
    ((exBaseBlank.Unpack exInputOn.toC).2.Unpack exInputOnlyBadPort.toC).1 ≠ none ∧
    ((exBaseBlank.Unpack exInputOn.toC).2.Unpack exInputOnlyBadPort.toC).2.EnabledIsSet = true ∧
    ¬ (((exBaseBlank.Unpack exInputOn.toC).2.Unpack exInputOnlyBadPort.toC).2.Enabled = true ∧
       ((exBaseBlank.Unpack exInputOn.toC).2.Unpack exInputOnlyBadPort.toC).2.EnabledIsSet
         = false) := by
  refine ⟨rfl, rfl, by decide, by decide, by decide⟩

/-- C13, amended. Provenance is not sticky but the value is: for every base `b`
and every boolean `v`, if `Unpack` with an input carrying `enabled: v` succeeds
and `Unpack` run again on the result with an input that has no `enabled` field
succeeds as well, the target is left with `Enabled = v` (not `b.Enabled`, not
the built-in default `false`) and `EnabledIsSet = false`. -/
theorem unpack_provenance_not_sticky (b : MonitoringHTTPConfig) (v : Bool) (i1 i2 : Input)
    (hv : i1.enabled = .value v) (habs : i2.enabled = .absent)
    (hok1 : (b.Unpack i1.toC).1 = none)
    (hok2 : ((b.Unpack i1.toC).2.Unpack i2.toC).1 = none) :
    ((b.Unpack i1.toC).2.Unpack i2.toC).2.Enabled = v ∧
    ((b.Unpack i1.toC).2.Unpack i2.toC).2.EnabledIsSet = false := by
  have h1 := (Unpack_enabled_of_ok b i1 hok1).2.1 v hv
  have h2 := (Unpack_enabled_of_ok (b.Unpack i1.toC).2 i2 hok2).1 habs
  exact ⟨h2.1.trans h1.1, h2.2⟩

/-- The statement C13, amended, at `enabled: true` over a base that is off,
followed by an input that only sets the port. -/
theorem unpack_provenance_not_sticky_witness :
    exBaseBlank.Enabled = false ∧
    ((exBaseBlank.Unpack exInputOn.toC).2.Unpack exInputPort.toC).2.Enabled = true ∧
    ((exBaseBlank.Unpack exInputOn.toC).2.Unpack exInputPort.toC).2.EnabledIsSet = false :=
  ⟨rfl, unpack_provenance_not_sticky exBaseBlank true exInputOn exInputPort rfl rfl rfl rfl⟩

/-- C14. Idempotence of `Unpack`: for every base `b` and every input that decodes
successfully, applying `Unpack` with that same input a second time to the result
of the first application succeeds and yields the same settings value as the
first application (same `Enabled`, `EnabledIsSet`, `Host`, `Port` and
`Buffer`). -/
theorem unpack_idempotent (b : MonitoringHTTPConfig) (i : Input) (t : Tmp)
    (hok : i.toC.Unpack (baseTmp b) = .ok t) :
    (b.Unpack i.toC).1 = none ∧
    (b.Unpack i.toC).2.Unpack i.toC = (none, (b.Unpack i.toC).2) := by
  obtain ⟨he, hh, hp, hbuf⟩ := (Input.Unpack_eq_ok_iff i (baseTmp b) t).1 hok
  rw [Unpack_of_ok b i.toC t hok]
  refine ⟨rfl, ?_⟩
  obtain ⟨h2, hh2, hhost⟩ := decodeHost_idem _ _ _ hh
  have hok2 : i.toC.Unpack (baseTmp
      { Enabled := t.Enabled.getD b.Enabled,
        Host := if blank t.Host then DefaultHost else t.Host,
        Port := t.Port, Buffer := t.Buffer, EnabledIsSet := t.Enabled.isSome }) =
      .ok { Enabled := t.Enabled, Host := h2, Port := t.Port, Buffer := t.Buffer } :=
    (Input.Unpack_eq_ok_iff i _ _).2
      ⟨he, hh2, decodePort_idem _ _ _ hp, decodeBuffer_idem _ _ _ hbuf⟩
  rw [Unpack_of_ok _ i.toC _ hok2]
  simp only [hhost]
  cases t.Enabled <;> rfl

/-- The statement C14 at an input with a blank host, a port and an empty
`buffer` block over a base that is on. -/
theorem unpack_idempotent_witness :
    (exBaseOn.Unpack
      (Input.toC { enabled := .absent, host := .value "   ", port := .value 8080,
                   buffer := .value { enabled := .absent } })).1 = none ∧
    (exBaseOn.Unpack
      (Input.toC { enabled := .absent, host := .value "   ", port := .value 8080,
                   buffer := .value { enabled := .absent } })).2.Unpack
      (Input.toC { enabled := .absent, host := .value "   ", port := .value 8080,
                   buffer := .value { enabled := .absent } }) =
      (none, (exBaseOn.Unpack
        (Input.toC { enabled := .absent, host := .value "   ", port := .value 8080,
                     buffer := .value { enabled := .absent } })).2) :=
  unpack_idempotent exBaseOn
    { enabled := .absent, host := .value "   ", port := .value 8080,
      buffer := .value { enabled := .absent } }
    { Enabled := none, Host := "   ", Port := 8080, Buffer := some { Enabled := false } } rfl

/-- C15, the statement as given fails: two runs over the same base whose inputs
agree on host, port and buffer (all three omitted) do not succeed or fail
together when the `enabled` field of one input is `true` and that of the other
is not a boolean: the first run succeeds, the second returns an error. -/
theorem unpack_noninterference_counterexample :
    exInputOn.host = exInputBadEnabled.host ∧
    exInputOn.port = exInputBadEnabled.port ∧
    exInputOn.buffer = exInputBadEnabled.buffer ∧
    (exBaseOn.Unpack exInputOn.toC).1 = none ∧
    (exBaseOn.Unpack exInputBadEnabled.toC).1 = some ⟨"type mismatch accessing enabled"⟩ ∧
    ¬ ((exBaseOn.Unpack exInputOn.toC).1 = none ↔
       (exBaseOn.Unpack exInputBadEnabled.toC).1 = none) := by
  refine ⟨rfl, rfl, rfl, rfl, rfl, ?_⟩
  intro h
  have h2 : (exBaseOn.Unpack exInputBadEnabled.toC).1 = none := h.1 rfl
  exact absurd h2 (by decide)

/-- C15, amended. Non-interference between the tri-state flag and the other
fields of `Unpack`: for any two runs whose bases agree on `Host`, `Port` and
`Buffer`, whose inputs agree on `host`, `port` and `buffer`, and whose inputs
each have an `enabled` field that is absent or a boolean, both runs succeed or
fail together and on success produce the same `Host`, `Port` and `Buffer`,
whatever `Enabled` and `EnabledIsSet` of the bases and the `enabled` fields of
the inputs are; and the resulting `EnabledIsSet` is true exactly when `enabled`
is present in the input, whatever the base. -/
theorem unpack_noninterference (b1 b2 : MonitoringHTTPConfig) (i1 i2 : Input)
    (hH : b1.Host = b2.Host) (hP : b1.Port = b2.Port) (hB : b1.Buffer = b2.Buffer)
    (hh : i1.host = i2.host) (hp : i1.port = i2.port) (hb : i1.buffer = i2.buffer)
    (he1 : i1.enabled ≠ .malformed) (he2 : i2.enabled ≠ .malformed) :
    ((b1.Unpack i1.toC).1 = none ↔ (b2.Unpack i2.toC).1 = none) ∧
    ((b1.Unpack i1.toC).1 = none →
      (b1.Unpack i1.toC).2.Host = (b2.Unpack i2.toC).2.Host ∧
      (b1.Unpack i1.toC).2.Port = (b2.Unpack i2.toC).2.Port ∧
      (b1.Unpack i1.toC).2.Buffer = (b2.Unpack i2.toC).2.Buffer) ∧
    ((b1.Unpack i1.toC).1 = none → (b1.Unpack i1.toC).2.EnabledIsSet = i1.enabled.present) ∧
    ((b2.Unpack i2.toC).1 = none → (b2.Unpack i2.toC).2.EnabledIsSet = i2.enabled.present) := by
  refine ⟨⟨?_, ?_⟩, ?_, Unpack_isSet_of_ok b1 i1, Unpack_isSet_of_ok b2 i2⟩
  · intro h
    obtain ⟨t1, ht1⟩ := decode_ok_of_Unpack b1 i1.toC h
    obtain ⟨e2, ht2⟩ := decode_transfer b1 b2 i1 i2 hH hP hB hh hp hb he2 t1 ht1
    rw [Unpack_of_ok b2 i2.toC _ ht2]
  · intro h
    obtain ⟨t2, ht2⟩ := decode_ok_of_Unpack b2 i2.toC h
    obtain ⟨e1, ht1⟩ :=
      decode_transfer b2 b1 i2 i1 hH.symm hP.symm hB.symm hh.symm hp.symm hb.symm he1 t2 ht2
    rw [Unpack_of_ok b1 i1.toC _ ht1]
  · intro h
    obtain ⟨t1, ht1⟩ := decode_ok_of_Unpack b1 i1.toC h
    obtain ⟨e2, ht2⟩ := decode_transfer b1 b2 i1 i2 hH hP hB hh hp hb he2 t1 ht1
    rw [Unpack_of_ok b1 i1.toC _ ht1, Unpack_of_ok b2 i2.toC _ ht2]
    exact ⟨rfl, rfl, rfl⟩

/-- The statement C15, amended, at two bases that differ in `Enabled` and
`EnabledIsSet` only and two inputs that differ in `enabled` only. -/
theorem unpack_noninterference_witness :
    (({ exBaseBlank with Enabled := true, EnabledIsSet := true } :
        MonitoringHTTPConfig).Unpack exInputOff.toC).1 = none ∧
    (exBaseBlank.Unpack exInputEmpty.toC).1 = none ∧
    (({ exBaseBlank with Enabled := true, EnabledIsSet := true } :
        MonitoringHTTPConfig).Unpack exInputOff.toC).2.Host =
      (exBaseBlank.Unpack exInputEmpty.toC).2.Host ∧
    (({ exBaseBlank with Enabled := true, EnabledIsSet := true } :
        MonitoringHTTPConfig).Unpack exInputOff.toC).2.EnabledIsSet = true ∧
    (exBaseBlank.Unpack exInputEmpty.toC).2.EnabledIsSet = false :=
  ⟨rfl, rfl,
   ((unpack_noninterference { exBaseBlank with Enabled := true, EnabledIsSet := true }
      exBaseBlank exInputOff exInputEmpty rfl rfl rfl rfl rfl rfl
      (by decide) (by decide)).2.1 rfl).1,
   (unpack_noninterference { exBaseBlank with Enabled := true, EnabledIsSet := true }
      exBaseBlank exInputOff exInputEmpty rfl rfl rfl rfl rfl rfl
      (by decide) (by decide)).2.2.1 rfl,
   (unpack_noninterference { exBaseBlank with Enabled := true, EnabledIsSet := true }
      exBaseBlank exInputOff exInputEmpty rfl rfl rfl rfl rfl rfl
      (by decide) (by decide)).2.2.2 rfl⟩

end Monitoring
